import Mathlib

/-!
# Verification of the WorthIt transcript/comment service core (`app.py`)

Shallow embedding of the pure control-flow and state-update logic of the
Flask service in `app.py`: video-id normalization, proxy-provider failure
accounting and selection, the transcript fallback orchestrator, the
two-tier caches, the comment fallback chain, and the single-flight
(in-flight deduplication) protocol.  Time is modelled as `ℤ`
(Python `time.time()` floats), Python strings as `String`/`List Char`,
and Python exceptions as explicit sum types.
-/

/-! ## Identifier normalizer (`app.py` lines 627-650) -/

/-- Python `re` `\w` for `str` patterns: `ch` is a word character iff it is
alphanumeric in the Unicode sense or an underscore (CPython
`SRE_UNI_IS_WORD`).  Modelled exactly on the Basic Latin and Latin-1
Supplement blocks (code points `< 0x100`), which suffices for every input
considered in this development: ASCII alphanumerics and underscore, plus
the Latin-1 letters `ª µ º À-Ö Ø-ö ø-ÿ` (i.e. `0xC0-0xFF` without the
multiplication and division signs `0xD7`, `0xF7`).  Characters of
`0x100` and above are not classified (the theorems below never use them). -/
def isPyWordChar (c : Char) : Bool :=
  c.isAlphanum || c == '_' ||
  c.toNat == 0xAA || c.toNat == 0xB5 || c.toNat == 0xBA ||
  (decide (0xC0 ≤ c.toNat) && decide (c.toNat ≤ 0xFF) &&
   c.toNat != 0xD7 && c.toNat != 0xF7)

/-- `VIDEO_ID_REGEX = re.compile(r'^[\w-]{11}$')` with `fullmatch`:
exactly 11 characters, each `\w` or `-`. -/
def validate_video_id (s : List Char) : Bool :=
  s.length == 11 && s.all (fun c => isPyWordChar c || c == '-')

/-- The ASCII capture class `[a-zA-Z0-9_-]` used by both extraction
patterns in `extract_video_id`. -/
def isAsciiIdChar (c : Char) : Bool :=
  c.isAlphanum || c == '_' || c == '-'

/-- The capture group `([a-zA-Z0-9_-]{11})`: consume exactly 11 ASCII id
characters at the head of `l` (anything may follow). -/
def captureEleven (l : List Char) : Option (List Char) :=
  let v := l.take 11
  if v.length == 11 && v.all isAsciiIdChar then some v else none

/-- Try one literal alternative of the non-capturing group at the current
position: the literal must be a prefix of `l` and the 11-char capture must
succeed right after it. -/
def matchAltAt (alt : List Char) (l : List Char) : Option (List Char) :=
  if alt.isPrefixOf l then captureEleven (l.drop alt.length) else none

/-- `re.search` of `(?:alt1|alt2|…)([a-zA-Z0-9_-]{11})`: scan positions
left to right; at each position try the alternatives in their written
order (leftmost match wins, alternation order breaks ties at a position). -/
def searchCapture (alts : List (List Char)) : List Char → Option (List Char)
  | [] => alts.findSome? (fun a => matchAltAt a [])
  | c :: rest =>
    match alts.findSome? (fun a => matchAltAt a (c :: rest)) with
    | some v => some v
    | none => searchCapture alts rest

/-- Alternatives of the first pattern
`(?:v=|/|embed/|shorts/|live/)([a-zA-Z0-9_-]{11})`. -/
def patternOneAlts : List (List Char) :=
  [['v', '='], ['/'], "embed/".toList, "shorts/".toList, "live/".toList]

/-- Alternatives of the second pattern `youtu\.be/([a-zA-Z0-9_-]{11})`
(the dot is escaped, hence literal). -/
def patternTwoAlts : List (List Char) :=
  ["youtu.be/".toList]

/-- The `for pattern in patterns` loop: on a match whose capture passes
`validate_video_id`, return it; otherwise continue with the next pattern. -/
def tryIdPatterns : List (List (List Char)) → List Char → Option (List Char)
  | [], _ => none
  | alts :: rest, s =>
    match searchCapture alts s with
    | some vid =>
      if validate_video_id vid then some vid else tryIdPatterns rest s
    | none => tryIdPatterns rest s

/-- `extract_video_id` (`app.py` lines 633-650): accept the raw input when
it fullmatches `^[\w-]{11}$`, else search the two URL patterns in order
and return the first validated capture; `None` when nothing matches.
(The `lru_cache` decorator is semantically inert on a pure function.) -/
def extract_video_id (s : List Char) : Option (List Char) :=
  if validate_video_id s then some s
  else tryIdPatterns [patternOneAlts, patternTwoAlts] s

/-- The specification predicate: an 11-character string over
`[A-Za-z0-9_-]` — the regex `^[A-Za-z0-9_-]{11}$` of the spec. -/
def matchesVideoIdSpec (s : List Char) : Bool :=
  s.length == 11 && s.all isAsciiIdChar

/-! ## Proxy provider accounting (`app.py` lines 769-811)

`TranscriptProxyProvider` holds a failure counter and a cooldown
deadline, updated under a per-provider lock; the lock makes each method
atomic, so the methods are modelled as pure state transformers and a call
sequence as a fold.  `time.time()` is passed in as `now : ℤ`. -/

structure TranscriptProxyProvider where
  name : String
  display : String
  failure_count : Int
  cooldown_until : ℤ
  deriving Repr, DecidableEq

/-- A freshly constructed provider (`__init__`): counter `0`,
cooldown `0.0`. -/
def TranscriptProxyProvider.init (name display : String) :
    TranscriptProxyProvider :=
  { name := name, display := display, failure_count := 0, cooldown_until := 0 }

/-- `is_available`: `time.time() >= self._cooldown_until`. -/
def TranscriptProxyProvider.is_available (now : ℤ)
    (p : TranscriptProxyProvider) : Bool :=
  decide (p.cooldown_until ≤ now)

/-- `record_success`: reset the failure counter and clear the cooldown. -/
def record_success (p : TranscriptProxyProvider) : TranscriptProxyProvider :=
  { p with failure_count := 0, cooldown_until := 0 }

/-- `record_failure` with `TRANSCRIPT_PROXY_FAILURE_THRESHOLD = threshold`
and `TRANSCRIPT_PROXY_COOLDOWN_SECONDS = cooldown`: increment the counter;
when it reaches the threshold, start the cooldown, reset the counter and
report `True` (the provider just entered cooldown). -/
def record_failure (threshold : Int) (cooldown now : ℤ)
    (p : TranscriptProxyProvider) : TranscriptProxyProvider × Bool :=
  let fc := p.failure_count + 1
  if fc ≥ threshold then
    ({ p with failure_count := 0, cooldown_until := now + cooldown }, true)
  else
    ({ p with failure_count := fc }, false)

/-- One call of the public accounting surface of a provider. -/
inductive ProviderCall where
  | success : ProviderCall
  | failure (now : ℤ) : ProviderCall
  deriving Repr, DecidableEq

/-- Apply one call (the returned `Bool` of `record_failure` is dropped
here; the theorems inspect it separately). -/
def applyProviderCall (threshold : Int) (cooldown : ℤ)
    (p : TranscriptProxyProvider) : ProviderCall → TranscriptProxyProvider
  | .success => record_success p
  | .failure now => (record_failure threshold cooldown now p).1

/-- Run a call sequence from a given provider state. -/
def runProviderCalls (threshold : Int) (cooldown : ℤ)
    (p : TranscriptProxyProvider) (calls : List ProviderCall) :
    TranscriptProxyProvider :=
  calls.foldl (applyProviderCall threshold cooldown) p

/-- The counter invariant maintained by the accounting methods. -/
def counterInv (threshold : Int) (p : TranscriptProxyProvider) : Prop :=
  0 ≤ p.failure_count ∧ p.failure_count < threshold

theorem counterInv_init (threshold : Int) (h : 1 ≤ threshold)
    (name display : String) :
    counterInv threshold (TranscriptProxyProvider.init name display) := by
  constructor
  · simp [TranscriptProxyProvider.init]
  · simp only [TranscriptProxyProvider.init]
    omega

theorem counterInv_step (threshold : Int) (cooldown : ℤ)
    (h : 1 ≤ threshold) (p : TranscriptProxyProvider)
    (hp : counterInv threshold p) (c : ProviderCall) :
    counterInv threshold (applyProviderCall threshold cooldown p c) := by
  obtain ⟨h0, h1⟩ := hp
  cases c with
  | success =>
    constructor
    · simp [applyProviderCall, record_success]
    · simp only [applyProviderCall, record_success]
      omega
  | failure now =>
    simp only [applyProviderCall, record_failure]
    by_cases hge : p.failure_count + 1 ≥ threshold
    · simp only [if_pos hge]
      constructor
      · simp
      · simp only []
        omega
    · simp only [if_neg hge]
      constructor
      · simp
        omega
      · simp only []
        omega

theorem counterInv_run (threshold : Int) (cooldown : ℤ)
    (h : 1 ≤ threshold) (p : TranscriptProxyProvider)
    (hp : counterInv threshold p) (calls : List ProviderCall) :
    counterInv threshold (runProviderCalls threshold cooldown p calls) := by
  induction calls generalizing p with
  | nil => exact hp
  | cons c rest ih =>
    exact ih _ (counterInv_step threshold cooldown h p hp c)

/-- **C5** — the spec claims every value returned by `extract_video_id`
matches `^[A-Za-z0-9_-]{11}$`.  The direct-id branch validates with
`^[\w-]{11}$`, and Python `\w` on `str` is Unicode-aware, so the
11-character input `ááááááááááá` (U+00E1, a Latin-1 letter) fullmatches
the validator and is returned verbatim although it is not an ASCII id:
the code contradicts the ASCII character class its own extraction
patterns use. -/
theorem C5_extract_video_id_nonascii :
    extract_video_id (List.replicate 11 'á') = some (List.replicate 11 'á') ∧
    matchesVideoIdSpec (List.replicate 11 'á') = false := by
  decide

/-- **C6** — provider failure accounting: from any call sequence,
`record_success` zeroes the counter and cooldown; `record_failure`
increments the counter and enters cooldown exactly when the incremented
counter reaches `FAILURE_THRESHOLD` (setting `cooldown_until = now +
COOLDOWN_SECONDS`, resetting the counter, returning `true`); the counter
never becomes negative. -/
theorem C6_provider_accounting (threshold : Int) (cooldown now : ℤ)
    (h : 1 ≤ threshold) (name display : String) (calls : List ProviderCall)
    (p : TranscriptProxyProvider)
    (hp : p = runProviderCalls threshold cooldown
      (TranscriptProxyProvider.init name display) calls) :
    0 ≤ p.failure_count ∧
    (record_success p).failure_count = 0 ∧
    (record_success p).cooldown_until = 0 ∧
    ((record_failure threshold cooldown now p).2 = true ↔
      p.failure_count + 1 = threshold) ∧
    ((record_failure threshold cooldown now p).2 = true →
      (record_failure threshold cooldown now p).1.cooldown_until
          = now + cooldown ∧
      (record_failure threshold cooldown now p).1.failure_count = 0) ∧
    ((record_failure threshold cooldown now p).2 = false →
      (record_failure threshold cooldown now p).1.failure_count
          = p.failure_count + 1) ∧
    0 ≤ (record_failure threshold cooldown now p).1.failure_count := by
  have hinv : counterInv threshold p := by
    rw [hp]
    exact counterInv_run threshold cooldown h _
      (counterInv_init threshold h name display) calls
  obtain ⟨h0, h1⟩ := hinv
  refine ⟨h0, rfl, rfl, ?_, ?_, ?_, ?_⟩
  · constructor
    · intro ht
      simp only [record_failure] at ht
      by_cases hge : p.failure_count + 1 ≥ threshold
      · omega
      · simp only [if_neg hge] at ht
        exact absurd ht (by simp)
    · intro heq
      simp only [record_failure, if_pos (le_of_eq heq.symm)]
  · intro ht
    simp only [record_failure] at ht ⊢
    by_cases hge : p.failure_count + 1 ≥ threshold
    · simp only [if_pos hge] at ht ⊢
      trivial
    · simp only [if_neg hge] at ht
      exact absurd ht (by simp)
  · intro hf
    simp only [record_failure] at hf ⊢
    by_cases hge : p.failure_count + 1 ≥ threshold
    · simp only [if_pos hge] at hf
      exact absurd hf (by simp)
    · simp only [if_neg hge]
  · simp only [record_failure]
    by_cases hge : p.failure_count + 1 ≥ threshold
    · simp only [if_pos hge]; omega
    · simp only [if_neg hge]; omega

theorem C6_provider_accounting_witness :
    (1 : Int) ≤ 2 ∧
    (0 ≤ (runProviderCalls 2 300 (TranscriptProxyProvider.init "webshare"
        "p.webshare.io:80") [ProviderCall.failure 1]).failure_count ∧
    (record_success (runProviderCalls 2 300 (TranscriptProxyProvider.init
        "webshare" "p.webshare.io:80")
        [ProviderCall.failure 1])).failure_count = 0 ∧
    (record_success (runProviderCalls 2 300 (TranscriptProxyProvider.init
        "webshare" "p.webshare.io:80")
        [ProviderCall.failure 1])).cooldown_until = 0 ∧
    ((record_failure 2 300 7 (runProviderCalls 2 300
        (TranscriptProxyProvider.init "webshare" "p.webshare.io:80")
        [ProviderCall.failure 1])).2 = true ↔
      (runProviderCalls 2 300 (TranscriptProxyProvider.init "webshare"
        "p.webshare.io:80") [ProviderCall.failure 1]).failure_count + 1 = 2) ∧
    ((record_failure 2 300 7 (runProviderCalls 2 300
        (TranscriptProxyProvider.init "webshare" "p.webshare.io:80")
        [ProviderCall.failure 1])).2 = true →
      (record_failure 2 300 7 (runProviderCalls 2 300
        (TranscriptProxyProvider.init "webshare" "p.webshare.io:80")
        [ProviderCall.failure 1])).1.cooldown_until = 7 + 300 ∧
      (record_failure 2 300 7 (runProviderCalls 2 300
        (TranscriptProxyProvider.init "webshare" "p.webshare.io:80")
        [ProviderCall.failure 1])).1.failure_count = 0) ∧
    ((record_failure 2 300 7 (runProviderCalls 2 300
        (TranscriptProxyProvider.init "webshare" "p.webshare.io:80")
        [ProviderCall.failure 1])).2 = false →
      (record_failure 2 300 7 (runProviderCalls 2 300
        (TranscriptProxyProvider.init "webshare" "p.webshare.io:80")
        [ProviderCall.failure 1])).1.failure_count =
      (runProviderCalls 2 300 (TranscriptProxyProvider.init "webshare"
        "p.webshare.io:80") [ProviderCall.failure 1]).failure_count + 1) ∧
    0 ≤ (record_failure 2 300 7 (runProviderCalls 2 300
        (TranscriptProxyProvider.init "webshare" "p.webshare.io:80")
        [ProviderCall.failure 1])).1.failure_count) :=
  ⟨by decide,
   C6_provider_accounting 2 300 7 (by decide) "webshare" "p.webshare.io:80"
     [ProviderCall.failure 1] _ rfl⟩

/-! ## Proxy provider selection (`app.py` lines 870-878 and 1222-1240)

`_select_transcript_proxy_providers` filters on `is_available` and, when
all providers are cooling down, falls back to
`sorted(TRANSCRIPT_PROXY_PROVIDERS, key=lambda provider:
provider.cooldown_until)`.  Python `sorted` is a stable sort; the
embedding uses `List.insertionSort`, which is also stable, and a stable
sort by a total preorder is extensionally unique, so the two agree.
The clock is read once (`now`); the source re-reads `time.time()` inside
`is_available` at each call, which the pure model collapses to a single
instant. -/

/-- Key order used by the `sorted(..., key=...)` call. -/
def byCooldown (a b : TranscriptProxyProvider) : Prop :=
  a.cooldown_until ≤ b.cooldown_until

instance : DecidableRel byCooldown := fun a b =>
  inferInstanceAs (Decidable (a.cooldown_until ≤ b.cooldown_until))

instance : IsTotal TranscriptProxyProvider byCooldown :=
  ⟨fun _ _ => le_total _ _⟩

instance : IsTrans TranscriptProxyProvider byCooldown :=
  ⟨fun _ _ _ hab hbc => le_trans hab hbc⟩

/-- `_select_transcript_proxy_providers`: the empty pool yields `[]`;
otherwise the available providers in configured order, or — when every
provider is cooling down — the whole pool sorted by `cooldown_until`
ascending. -/
def _select_transcript_proxy_providers
    (providers : List TranscriptProxyProvider) (now : ℤ) :
    List TranscriptProxyProvider :=
  if providers.isEmpty then []
  else
    let available := providers.filter (TranscriptProxyProvider.is_available now)
    if !available.isEmpty then available
    else providers.insertionSort byCooldown

/-- The providers whose attempt loop actually runs in `get_transcript`
(`app.py` lines 1224-1240): index `0` is always attempted (a
`cooldown_break` when unavailable); every later provider is skipped
unless it is available. -/
def attemptedProviders (seq : List TranscriptProxyProvider) (now : ℤ) :
    List TranscriptProxyProvider :=
  match seq with
  | [] => []
  | p :: rest => p :: rest.filter (TranscriptProxyProvider.is_available now)

/-- **C7** — provider selection: when some provider is available the
selection is exactly the available providers in configured order;
otherwise it is a permutation of the whole pool sorted ascending by
`cooldown_until`, and the `get_transcript` loop then attempts exactly one
provider of that sequence (the first, i.e. soonest-recovering). -/
theorem C7_provider_selection (providers : List TranscriptProxyProvider)
    (now : ℤ) (hne : providers ≠ []) :
    (providers.filter (TranscriptProxyProvider.is_available now) ≠ [] →
      _select_transcript_proxy_providers providers now
        = providers.filter (TranscriptProxyProvider.is_available now)) ∧
    (providers.filter (TranscriptProxyProvider.is_available now) = [] →
      (_select_transcript_proxy_providers providers now).Sorted byCooldown ∧
      (_select_transcript_proxy_providers providers now).Perm providers ∧
      attemptedProviders (_select_transcript_proxy_providers providers now) now
        = (_select_transcript_proxy_providers providers now).take 1) := by
  have hnotempty : providers.isEmpty = false := by
    cases providers with
    | nil => exact absurd rfl hne
    | cons a l => rfl
  constructor
  · intro hav
    simp only [_select_transcript_proxy_providers, hnotempty, Bool.false_eq_true,
      if_false]
    have : (providers.filter
        (TranscriptProxyProvider.is_available now)).isEmpty = false := by
      cases h : providers.filter (TranscriptProxyProvider.is_available now) with
      | nil => exact absurd h hav
      | cons a l => rfl
    simp [this]
  · intro hav
    have hsel : _select_transcript_proxy_providers providers now
        = providers.insertionSort byCooldown := by
      simp [_select_transcript_proxy_providers, hnotempty, hav]
    refine ⟨?_, ?_, ?_⟩
    · rw [hsel]; exact List.sorted_insertionSort byCooldown providers
    · rw [hsel]; exact List.perm_insertionSort byCooldown providers
    · have hperm := List.perm_insertionSort byCooldown providers
      have hallcool : ∀ p ∈ providers.insertionSort byCooldown,
          ¬ TranscriptProxyProvider.is_available now p = true := by
        intro p hp
        exact (List.filter_eq_nil_iff.mp hav) p (hperm.mem_iff.mp hp)
      rw [hsel]
      cases hsort : providers.insertionSort byCooldown with
      | nil =>
        exfalso
        have := hperm.symm.length_eq
        rw [hsort] at this
        cases providers with
        | nil => exact hne rfl
        | cons a l => simp at this
      | cons q rest =>
        simp only [attemptedProviders, List.take]
        have : rest.filter (TranscriptProxyProvider.is_available now) = [] := by
          rw [List.filter_eq_nil_iff]
          intro a ha
          exact hallcool a (by rw [hsort]; exact List.mem_cons_of_mem q ha)
        rw [this]

/-! ## Transcript fallback orchestrator (`app.py` lines 1198-1432)

`get_transcript` first drives the primary `youtube-transcript-api`
adapter through the selected proxy providers (or once, direct, when no
provider is configured) and returns on the first truthy payload.  When
that phase produces nothing it submits the timedtext and yt-dlp adapters
to a two-worker `ThreadPoolExecutor` and drains `as_completed(...,
timeout=12)`.  The thread-level race is modelled by quantifying over the
order in which the futures complete; a deadline expiry is the case where
the undelivered tail of completions is cut off (in particular an empty
completion list models a total timeout). -/

/-- The value `get_transcript` returns: a dict with non-empty text (the
adapters only produce truthy payload dicts, `None` otherwise). -/
structure TranscriptPayload where
  text : String
  languageCode : String
  isGenerated : Bool
  deriving Repr, DecidableEq

/-- Outcome of one `fetch_api_once` attempt (or of a fallback adapter):
a truthy payload dict, a falsy result (`None`/no transcript), or a raised
exception. -/
inductive AttemptResult where
  | payload (t : TranscriptPayload) : AttemptResult
  | empty : AttemptResult
  | exc : AttemptResult
  deriving Repr, DecidableEq

/-- The per-provider attempt loop (`app.py` lines 1240-1311): attempts run
in order; the first truthy payload is returned; an exception or falsy
result records a provider failure and moves on (the proxy branch catches
every exception, line 1255; the direct no-provider branch catches the
transcript-api error types, line 1357 — `AttemptResult.exc` stands for a
caught exception). -/
def providerAttemptLoop (outcomes : List AttemptResult) :
    Option TranscriptPayload :=
  outcomes.findSome? fun r =>
    match r with
    | .payload t => some t
    | _ => none

/-- Phase 1 of `get_transcript`: the loop over the selected provider
sequence, each provider running its attempt loop (the no-provider branch,
lines 1316-1327, is the degenerate one-provider one-attempt case).  The
first payload wins. -/
def phase1Result (outcomesPerProvider : List (List AttemptResult)) :
    Option TranscriptPayload :=
  outcomesPerProvider.findSome? providerAttemptLoop

/-- One entry of `fallback_attempts` (`app.py` lines 1368-1383): the
strategy name and whether the adapter call is allowed to use a proxy. -/
structure FallbackStrategy where
  name : String
  usesProxy : Bool
  deriving Repr, DecidableEq

/-- The submitted fallback strategies: timedtext with
`allow_proxy=False`, and yt-dlp with proxy config `None`. -/
def fallback_attempts : List FallbackStrategy :=
  [{ name := "timedtext", usesProxy := false },
   { name := "yt-dlp_no_proxy", usesProxy := false }]

/-- The `timeout=12` argument of `as_completed` (`app.py` line 1388). -/
def FALLBACK_DEADLINE_SECONDS : ℕ := 12

/-- The `as_completed` drain loop (`app.py` lines 1388-1415): futures are
examined in completion order; an exception is logged and skipped; the
first truthy payload is returned. -/
def runParallelFallback (completions : List (String × AttemptResult)) :
    Option TranscriptPayload :=
  completions.findSome? fun c =>
    match c.2 with
    | .payload t => some t
    | _ => none

/-- Outcome of the whole `get_transcript` call. -/
inductive TranscriptOutcome where
  | ok (t : TranscriptPayload) : TranscriptOutcome
  | noTranscriptFound : TranscriptOutcome
  deriving Repr, DecidableEq

/-- `get_transcript` (`app.py` lines 1198-1432) as a function of the
attempt outcomes: phase 1 first; on nothing, the parallel fallback; when
that also produces nothing (all futures falsy/raised, or the 12 s
deadline cut completions short), `raise NoTranscriptFound`. -/
def get_transcript_model (outcomesPerProvider : List (List AttemptResult))
    (completions : List (String × AttemptResult)) : TranscriptOutcome :=
  match phase1Result outcomesPerProvider with
  | some t => .ok t
  | none =>
    match runParallelFallback completions with
    | some t => .ok t
    | none => .noTranscriptFound

/-- **C8** — when every primary-adapter proxy attempt fails (or no
provider is configured), the fallback stage is the pair
timedtext + yt-dlp, both proxy-less, raced under the shared 12-second
deadline; the first non-empty completion is returned and a total timeout
(no completion delivered) yields `NoTranscriptFound`. -/
theorem C8_parallel_fallback (outcomesPerProvider : List (List AttemptResult))
    (completions : List (String × AttemptResult))
    (hfail : phase1Result outcomesPerProvider = none) :
    (fallback_attempts.map FallbackStrategy.name
        = ["timedtext", "yt-dlp_no_proxy"] ∧
     fallback_attempts.all (fun s => !s.usesProxy) = true ∧
     FALLBACK_DEADLINE_SECONDS = 12) ∧
    (∀ (t : String × TranscriptPayload) pre post,
      completions = pre ++ (t.1, AttemptResult.payload t.2) :: post →
      (∀ c ∈ pre, ∀ u, c.2 ≠ AttemptResult.payload u) →
      get_transcript_model outcomesPerProvider completions = .ok t.2) ∧
    ((∀ c ∈ completions, ∀ u, c.2 ≠ AttemptResult.payload u) →
      get_transcript_model outcomesPerProvider completions
        = .noTranscriptFound) := by
  refine ⟨⟨rfl, rfl, rfl⟩, ?_, ?_⟩
  · intro t pre post hc hpre
    simp only [get_transcript_model, hfail]
    have : runParallelFallback completions = some t.2 := by
      rw [hc]
      unfold runParallelFallback
      rw [List.findSome?_append]
      have hprenone : pre.findSome? (fun c =>
          match c.2 with
          | .payload t => some t
          | _ => none) = none := by
        rw [List.findSome?_eq_none_iff]
        intro c hcmem
        cases hc2 : c.2 with
        | payload u => exact absurd hc2 (by simpa using hpre c hcmem u)
        | empty => simp
        | exc => simp
      rw [hprenone]
      simp [List.findSome?]
    rw [this]
  · intro hall
    simp only [get_transcript_model, hfail]
    have : runParallelFallback completions = none := by
      unfold runParallelFallback
      rw [List.findSome?_eq_none_iff]
      intro c hcmem
      cases hc2 : c.2 with
      | payload u => exact absurd hc2 (by simpa using hall c hcmem u)
      | empty => simp
      | exc => simp
    rw [this]

theorem C8_parallel_fallback_witness :
    phase1Result [[AttemptResult.empty, AttemptResult.exc]] = none ∧
    ((fallback_attempts.map FallbackStrategy.name
        = ["timedtext", "yt-dlp_no_proxy"] ∧
      fallback_attempts.all (fun s => !s.usesProxy) = true ∧
      FALLBACK_DEADLINE_SECONDS = 12) ∧
    (∀ (t : String × TranscriptPayload) pre post,
      [("timedtext", AttemptResult.payload
          { text := "hello", languageCode := "en", isGenerated := false })]
        = pre ++ (t.1, AttemptResult.payload t.2) :: post →
      (∀ c ∈ pre, ∀ u, c.2 ≠ AttemptResult.payload u) →
      get_transcript_model [[AttemptResult.empty, AttemptResult.exc]]
        [("timedtext", AttemptResult.payload
          { text := "hello", languageCode := "en", isGenerated := false })]
        = .ok t.2) ∧
    ((∀ c ∈ [("timedtext", AttemptResult.payload
          { text := "hello", languageCode := "en",
            isGenerated := false })], ∀ u, c.2 ≠ AttemptResult.payload u) →
      get_transcript_model [[AttemptResult.empty, AttemptResult.exc]]
        [("timedtext", AttemptResult.payload
          { text := "hello", languageCode := "en", isGenerated := false })]
        = .noTranscriptFound)) :=
  ⟨rfl, C8_parallel_fallback _ _ rfl⟩

/-! ## Two-tier cache (`app.py` lines 609-611, 1904-2039, 2058-2127)

The memory tier is a `cachetools.TTLCache` — an external collaborator
modelled by its documented contract: one cache-wide `ttl`; `cache[k] = v`
stamps the entry with expiry `now + ttl`; lookup and `in` see only
unexpired entries.  Size-bound eviction (`maxsize`) is not modelled: the
claims below concern write order, membership and expiry stamps only.
The persistent tier is a `shelve` store: a durable string-keyed map with
no expiry. -/

structure TTLCacheModel (α : Type) where
  maxsize : ℕ
  ttl : ℤ
  entries : List (String × α × ℤ)
  deriving Repr, DecidableEq

/-- Unexpired lookup: the entry is visible while `now < expiry`. -/
def TTLCacheModel.lookup {α : Type} (c : TTLCacheModel α) (now : ℤ)
    (k : String) : Option α :=
  match c.entries.find? (fun e => e.1 == k) with
  | some e => if now < e.2.2 then some e.2.1 else none
  | none => none

/-- `cache[k] = v`: the new entry is stamped with `now + ttl` — the one
cache-wide TTL; `cachetools.TTLCache` has no per-entry TTL parameter. -/
def TTLCacheModel.insert {α : Type} (c : TTLCacheModel α) (now : ℤ)
    (k : String) (v : α) : TTLCacheModel α :=
  { c with entries :=
      (k, v, now + c.ttl) :: c.entries.filter (fun e => e.1 != k) }

/-- `k in cache`: membership among unexpired entries. -/
def TTLCacheModel.contains {α : Type} (c : TTLCacheModel α) (now : ℤ)
    (k : String) : Bool :=
  (c.lookup now k).isSome

/-- `shelve` read: `db.get(k)`. -/
def shelveGet {α : Type} (db : List (String × α)) (k : String) : Option α :=
  (db.find? (fun e => e.1 == k)).map (fun e => e.2)

/-- `shelve` write: `db[k] = v` (last writer wins, no expiry). -/
def shelvePut {α : Type} (db : List (String × α)) (k : String) (v : α) :
    List (String × α) :=
  (k, v) :: db.filter (fun e => e.1 != k)

/-- A value stored in the transcript caches: a payload dict or the
literal negative marker `"__NOT_AVAILABLE__"`. -/
inductive TranscriptCacheValue where
  | payload (t : TranscriptPayload) : TranscriptCacheValue
  | notAvailableMarker : TranscriptCacheValue
  deriving Repr, DecidableEq

/-- The two transcript tiers: `transcript_cache` (memory, TTL) and the
`shelve` store at `PERSISTENT_TRANSCRIPT_DB`. -/
structure TranscriptStore where
  mem : TTLCacheModel TranscriptCacheValue
  disk : List (String × TranscriptCacheValue)
  deriving Repr, DecidableEq

/-- Which tier a cache write hits. -/
inductive CacheTier where
  | memory : CacheTier
  | persistent : CacheTier
  deriving Repr, DecidableEq

/-- One observed cache write, in program order. -/
structure CacheWrite (α : Type) where
  tier : CacheTier
  key : String
  value : α
  deriving Repr, DecidableEq

/-- HTTP response skeleton of the transcript endpoint: status and the
`Cache-Control: public, max-age=…` header (absent when the handler sets
no explicit header). -/
structure TranscriptHttpResponse where
  status : ℕ
  maxAge : Option ℕ
  body : Option TranscriptPayload
  deriving Repr, DecidableEq

/-- Terminal outcome of one `get_transcript` call inside the endpoint
retry loop. -/
inductive UnifiedFetchOutcome where
  | ok (t : TranscriptPayload) : UnifiedFetchOutcome
  | noTranscriptFound : UnifiedFetchOutcome
  | networkErrorsExhausted : UnifiedFetchOutcome
  | internalError : UnifiedFetchOutcome
  deriving Repr, DecidableEq

/-- The fetch phase of `get_transcript_endpoint` (`app.py` lines
1992-2032), as a function of the terminal `get_transcript` outcome:
on success write memory then persistent and answer `200` with
`max-age=3600`; on `NoTranscriptFound` write the `"__NOT_AVAILABLE__"`
marker to both tiers — but only when the memory cache lacks the key —
and answer `404` with `max-age=600`; exhausted network retries answer
`404` (`max-age=600`) without caching; any other exception answers `500`
without caching.  The third component is the cache-write trace in
program order. -/
def transcriptFetchStep (st : TranscriptStore) (now : ℤ) (key : String)
    (outcome : UnifiedFetchOutcome) :
    TranscriptStore × TranscriptHttpResponse ×
      List (CacheWrite TranscriptCacheValue) :=
  match outcome with
  | .ok t =>
    let st1 : TranscriptStore :=
      { st with mem := st.mem.insert now key (.payload t) }
    let st2 : TranscriptStore :=
      { st1 with disk := shelvePut st1.disk key (.payload t) }
    (st2, { status := 200, maxAge := some 3600, body := some t },
      [{ tier := .memory, key := key, value := .payload t },
       { tier := .persistent, key := key, value := .payload t }])
  | .noTranscriptFound =>
    if st.mem.contains now key then
      (st, { status := 404, maxAge := some 600, body := none }, [])
    else
      let st1 : TranscriptStore :=
        { st with mem := st.mem.insert now key .notAvailableMarker }
      let st2 : TranscriptStore :=
        { st1 with disk := shelvePut st1.disk key .notAvailableMarker }
      (st2, { status := 404, maxAge := some 600, body := none },
        [{ tier := .memory, key := key, value := .notAvailableMarker },
         { tier := .persistent, key := key, value := .notAvailableMarker }])
  | .networkErrorsExhausted =>
    (st, { status := 404, maxAge := some 600, body := none }, [])
  | .internalError =>
    (st, { status := 500, maxAge := none, body := none }, [])

/-! ## Comment acquisition (`app.py` lines 1611-1725 and 2041-2138)

`_fetch_comments_resilient` iterates the four strategies serially; the
loop body catches `PermanentCommentBlock` (breaking with a local flag)
and every other exception (continuing), and the code after the loop only
logs and returns, so the function always returns a plain list — the
block flag never escapes it.  The auxiliary projections below expose the
internal trace (how many strategies were invoked, whether the flag was
set) for the theorems; the endpoint model consumes only the returned
list, exactly as the caller does. -/

/-- Outcome of one comment strategy call: a returned list (possibly
empty), a raised `PermanentCommentBlock`, or any other raised
exception. -/
inductive CommentStrategyOutcome where
  | ok (comments : List String) : CommentStrategyOutcome
  | permanentBlock : CommentStrategyOutcome
  | exc : CommentStrategyOutcome
  deriving Repr, DecidableEq

/-- The serial strategy order of `comment_retrieval_strategies`
(`app.py` lines 1614-1619). -/
def comment_retrieval_strategies : List String :=
  ["youtube-comment-downloader (no proxy)",
   "youtube-comment-downloader (with proxy)",
   "yt-dlp (no proxy)",
   "yt-dlp (with proxy)"]

/-- The strategy loop of `_fetch_comments_resilient` (lines 1633-1725):
returns `(result, strategies invoked, permanent_block_detected)`.
A truthy list returns immediately; `PermanentCommentBlock` breaks the
chain setting the flag; any other exception or a falsy list moves on;
an exhausted or broken chain returns the empty list. -/
def fetchCommentsResilientAux :
    List CommentStrategyOutcome → List String × ℕ × Bool
  | [] => ([], 0, false)
  | o :: rest =>
    match o with
    | .ok cs =>
      if !cs.isEmpty then (cs, 1, false)
      else
        let r := fetchCommentsResilientAux rest
        (r.1, r.2.1 + 1, r.2.2)
    | .permanentBlock => ([], 1, true)
    | .exc =>
      let r := fetchCommentsResilientAux rest
      (r.1, r.2.1 + 1, r.2.2)

/-- The value `_fetch_comments_resilient` returns to its caller. -/
def _fetch_comments_resilient (outcomes : List CommentStrategyOutcome) :
    List String :=
  (fetchCommentsResilientAux outcomes).1

/-- Trace projection: how many strategies the chain invoked. -/
def resilientInvokedCount (outcomes : List CommentStrategyOutcome) : ℕ :=
  (fetchCommentsResilientAux outcomes).2.1

/-- Trace projection: the internal `permanent_block_detected` flag. -/
def resilientBlockDetected (outcomes : List CommentStrategyOutcome) : Bool :=
  (fetchCommentsResilientAux outcomes).2.2

/-- The two comment tiers: `comment_cache` (memory, TTL) and the
`shelve` store at `PERSISTENT_COMMENT_DB`. -/
structure CommentsStore where
  mem : TTLCacheModel (List String)
  disk : List (String × List String)
  deriving Repr, DecidableEq

/-- JSON response of the `/comments` endpoint. -/
structure CommentsHttpResponse where
  status : ℕ
  video_id : String
  comments : List String
  warning : Option String
  deriving Repr, DecidableEq

/-- An exception escaping `_fetch_comments_resilient` as the endpoint
would classify it. -/
inductive CommentFetchExc where
  | permanentBlock : CommentFetchExc
  | other : CommentFetchExc
  deriving Repr, DecidableEq

/-- The fetch phase of `get_comments_endpoint` (`app.py` lines
2113-2131): on a normal return, cache the list in memory then on disk and
answer `200` without a warning; on `PermanentCommentBlock`, cache `[]` in
both tiers and answer `200` with the blocking warning; on any other
exception, answer `200` with the technical-issue warning and cache
nothing. -/
def get_comments_fetch_branch (st : CommentsStore) (now : ℤ)
    (video_id : String) (fetchResult : Except CommentFetchExc (List String)) :
    CommentsStore × CommentsHttpResponse × List (CacheWrite (List String)) :=
  match fetchResult with
  | .ok comments =>
    let st1 : CommentsStore :=
      { st with mem := st.mem.insert now video_id comments }
    let st2 : CommentsStore :=
      { st1 with disk := shelvePut st1.disk video_id comments }
    (st2,
     { status := 200, video_id := video_id, comments := comments,
       warning := none },
     [{ tier := .memory, key := video_id, value := comments },
      { tier := .persistent, key := video_id, value := comments }])
  | .error .permanentBlock =>
    let st1 : CommentsStore :=
      { st with mem := st.mem.insert now video_id [] }
    let st2 : CommentsStore :=
      { st1 with disk := shelvePut st1.disk video_id [] }
    (st2,
     { status := 200, video_id := video_id, comments := [],
       warning :=
         some "YouTube is temporarily blocking comments for this video." },
     [{ tier := .memory, key := video_id, value := [] },
      { tier := .persistent, key := video_id, value := [] }])
  | .error .other =>
    (st,
     { status := 200, video_id := video_id, comments := [],
       warning :=
         some "Comments could not be fetched due to a technical issue." },
     [])

/-- `_try_serve_from_cache` (`app.py` lines 2058-2075): memory first, then
disk; a disk hit is promoted into memory.  Returns the response and the
updated store on a hit. -/
def _try_serve_from_cache (st : CommentsStore) (now : ℤ) (video_id : String) :
    Option (CommentsHttpResponse × CommentsStore) :=
  match st.mem.lookup now video_id with
  | some cached =>
    some ({ status := 200, video_id := video_id, comments := cached,
            warning := none }, st)
  | none =>
    match shelveGet st.disk video_id with
    | some cachedDisk =>
      some ({ status := 200, video_id := video_id, comments := cachedDisk,
              warning := none },
            { st with mem := st.mem.insert now video_id cachedDisk })
    | none => none

/-- `get_comments_endpoint` (`app.py` lines 2041-2138) as a function of
the raw `videoId` parameter and the resilient-fetch result: missing or
invalid id answers `400`; a cache hit is served; otherwise the fetch
branch runs.  The single-flight wait between the cache probe and the
fetch produces no response of its own (a woken follower re-serves from
cache or promotes itself into the same fetch branch), so every response
of the handler is one of these three. -/
def get_comments_endpoint_model (raw : List Char) (st : CommentsStore)
    (now : ℤ) (fetchResult : Except CommentFetchExc (List String)) :
    CommentsHttpResponse × CommentsStore :=
  if raw.isEmpty then
    ({ status := 400, video_id := "", comments := [], warning := none }, st)
  else
    match extract_video_id raw with
    | none =>
      ({ status := 400, video_id := "", comments := [], warning := none }, st)
    | some vidChars =>
      let video_id := vidChars.asString
      match _try_serve_from_cache st now video_id with
      | some (resp, st1) => (resp, st1)
      | none =>
        let r := get_comments_fetch_branch st now video_id fetchResult
        (r.2.1, r.1)

/-- **C3** — the spec claims successful fetches write the persistent tier
first and the memory tier second; both endpoints do the opposite: the
memory assignment (`transcript_cache[cache_key] = payload`, line 2000;
`comment_cache[video_id] = comments`, line 2115) precedes the `shelve`
write (lines 2001-2002 and 2116-2117). -/
theorem C3_counterexample :
    ((transcriptFetchStep
        { mem := { maxsize := 200, ttl := 7200, entries := [] }, disk := [] }
        0 "dQw4w9WgXcQ"
        (.ok { text := "hello", languageCode := "en", isGenerated := false })
      ).2.2.map CacheWrite.tier
        = [CacheTier.memory, CacheTier.persistent]) ∧
    ¬ ((transcriptFetchStep
        { mem := { maxsize := 200, ttl := 7200, entries := [] }, disk := [] }
        0 "dQw4w9WgXcQ"
        (.ok { text := "hello", languageCode := "en", isGenerated := false })
      ).2.2.map CacheWrite.tier
        = [CacheTier.persistent, CacheTier.memory]) ∧
    ((get_comments_fetch_branch
        { mem := { maxsize := 150, ttl := 7200, entries := [] }, disk := [] }
        0 "dQw4w9WgXcQ" (Except.ok ["great video"])).2.2.map CacheWrite.tier
        = [CacheTier.memory, CacheTier.persistent]) ∧
    ¬ ((get_comments_fetch_branch
        { mem := { maxsize := 150, ttl := 7200, entries := [] }, disk := [] }
        0 "dQw4w9WgXcQ" (Except.ok ["great video"])).2.2.map CacheWrite.tier
        = [CacheTier.persistent, CacheTier.memory]) := by
  decide

/-- **C3 amended** — on every successful fetch (transcript payload or
comment list) both endpoints write the memory tier first and the
persistent tier second. -/
theorem C3_amended_write_order (st : TranscriptStore) (now : ℤ) (key : String)
    (t : TranscriptPayload) (cst : CommentsStore) (cnow : ℤ) (vid : String)
    (cs : List String) :
    (transcriptFetchStep st now key (.ok t)).2.2.map CacheWrite.tier
        = [CacheTier.memory, CacheTier.persistent] ∧
    (get_comments_fetch_branch cst cnow vid (.ok cs)).2.2.map CacheWrite.tier
        = [CacheTier.memory, CacheTier.persistent] :=
  ⟨rfl, rfl⟩

/-- **C4** — the spec claims the `"__NOT_AVAILABLE__"` sentinel carries
its own TTL, shorter than that of successful entries.  The sentinel and
the successful payload are stored in the same `transcript_cache`
(`TTLCache(maxsize=TRANSCRIPT_CACHE_SIZE, ttl=TRANSCRIPT_CACHE_TTL)`,
line 610), whose single cache-wide TTL stamps both identically: at
`now = 0` with the default `TRANSCRIPT_CACHE_TTL = 7200`, both entries
expire at `7200`, so the sentinel TTL is not shorter. -/
theorem C4_counterexample :
    ((transcriptFetchStep
        { mem := { maxsize := 200, ttl := 7200, entries := [] }, disk := [] }
        0 "dQw4w9WgXcQ" .noTranscriptFound).1.mem.lookup 0 "dQw4w9WgXcQ"
        = some .notAvailableMarker) ∧
    ((transcriptFetchStep
        { mem := { maxsize := 200, ttl := 7200, entries := [] }, disk := [] }
        0 "dQw4w9WgXcQ" .noTranscriptFound).1.mem.entries.map
          (fun e => e.2.2) = [7200]) ∧
    ((transcriptFetchStep
        { mem := { maxsize := 200, ttl := 7200, entries := [] }, disk := [] }
        0 "dQw4w9WgXcQ"
        (.ok { text := "hello", languageCode := "en", isGenerated := false })
      ).1.mem.entries.map (fun e => e.2.2) = [7200]) ∧
    ¬ ((7200 : ℤ) - 0 < 7200 - 0) := by
  decide

/-- **C4 amended** — when a transcript acquisition exhausts all
strategies (`NoTranscriptFound`) and the memory cache lacks the key, the
`"__NOT_AVAILABLE__"` sentinel is written to both tiers under the cache
key, stamped with the same cache-wide TTL as successful entries
(`now + TRANSCRIPT_CACHE_TTL`); only the HTTP `Cache-Control` max-age is
shorter (600 for the 404 versus 3600 for a success). -/
theorem C4_amended_negative_cache (st : TranscriptStore) (now : ℤ)
    (key : String) (t : TranscriptPayload)
    (h : st.mem.contains now key = false) :
    (transcriptFetchStep st now key .noTranscriptFound).2.2
        = [{ tier := .memory, key := key, value := .notAvailableMarker },
           { tier := .persistent, key := key,
             value := .notAvailableMarker }] ∧
    (transcriptFetchStep st now key .noTranscriptFound).1.mem.entries.head?
        = some (key, .notAvailableMarker, now + st.mem.ttl) ∧
    (transcriptFetchStep st now key (.ok t)).1.mem.entries.head?
        = some (key, .payload t, now + st.mem.ttl) ∧
    (transcriptFetchStep st now key .noTranscriptFound).2.1.status = 404 ∧
    (transcriptFetchStep st now key .noTranscriptFound).2.1.maxAge
        = some 600 ∧
    (transcriptFetchStep st now key (.ok t)).2.1.maxAge = some 3600 := by
  refine ⟨?_, ?_, rfl, ?_, ?_, rfl⟩ <;>
    simp [transcriptFetchStep, h, TTLCacheModel.insert]

theorem C4_amended_negative_cache_witness :
    (TTLCacheModel.contains
      (α := TranscriptCacheValue)
      { maxsize := 200, ttl := 7200, entries := [] } 0 "dQw4w9WgXcQ"
      = false) ∧
    ((transcriptFetchStep
        { mem := { maxsize := 200, ttl := 7200, entries := [] }, disk := [] }
        0 "dQw4w9WgXcQ" .noTranscriptFound).2.2
        = [{ tier := .memory, key := "dQw4w9WgXcQ",
             value := .notAvailableMarker },
           { tier := .persistent, key := "dQw4w9WgXcQ",
             value := .notAvailableMarker }] ∧
    (transcriptFetchStep
        { mem := { maxsize := 200, ttl := 7200, entries := [] }, disk := [] }
        0 "dQw4w9WgXcQ" .noTranscriptFound).1.mem.entries.head?
        = some ("dQw4w9WgXcQ", .notAvailableMarker, 0 + (7200 : ℤ)) ∧
    (transcriptFetchStep
        { mem := { maxsize := 200, ttl := 7200, entries := [] }, disk := [] }
        0 "dQw4w9WgXcQ"
        (.ok { text := "hello", languageCode := "en", isGenerated := false })
      ).1.mem.entries.head?
        = some ("dQw4w9WgXcQ",
            .payload { text := "hello", languageCode := "en",
                       isGenerated := false }, 0 + (7200 : ℤ)) ∧
    (transcriptFetchStep
        { mem := { maxsize := 200, ttl := 7200, entries := [] }, disk := [] }
        0 "dQw4w9WgXcQ" .noTranscriptFound).2.1.status = 404 ∧
    (transcriptFetchStep
        { mem := { maxsize := 200, ttl := 7200, entries := [] }, disk := [] }
        0 "dQw4w9WgXcQ" .noTranscriptFound).2.1.maxAge = some 600 ∧
    (transcriptFetchStep
        { mem := { maxsize := 200, ttl := 7200, entries := [] }, disk := [] }
        0 "dQw4w9WgXcQ"
        (.ok { text := "hello", languageCode := "en", isGenerated := false })
      ).2.1.maxAge = some 3600) :=
  ⟨by decide,
   C4_amended_negative_cache
     { mem := { maxsize := 200, ttl := 7200, entries := [] }, disk := [] }
     0 "dQw4w9WgXcQ"
     { text := "hello", languageCode := "en", isGenerated := false }
     (by decide)⟩

/-- **C10** — when `get_transcript` ends in `NoTranscriptFound` while the
memory cache already holds an unexpired value under the cache key, the
guard `if cache_key not in transcript_cache` (line 2009) skips the
negative write entirely: neither tier is touched and no cache write is
emitted; the `404` is returned with the short max-age. -/
theorem C10_marker_only_when_absent (st : TranscriptStore) (now : ℤ)
    (key : String) (v : TranscriptCacheValue)
    (h : st.mem.lookup now key = some v) :
    transcriptFetchStep st now key .noTranscriptFound
      = (st, { status := 404, maxAge := some 600, body := none }, []) := by
  have hc : st.mem.contains now key = true := by
    simp [TTLCacheModel.contains, h]
  simp [transcriptFetchStep, hc]

theorem C10_marker_only_when_absent_witness :
    (TTLCacheModel.lookup
      (α := TranscriptCacheValue)
      { maxsize := 200, ttl := 7200,
        entries := [("dQw4w9WgXcQ",
          .payload { text := "cached", languageCode := "en",
                     isGenerated := false }, 100)] }
      0 "dQw4w9WgXcQ"
      = some (.payload { text := "cached", languageCode := "en",
                         isGenerated := false })) ∧
    transcriptFetchStep
      { mem := { maxsize := 200, ttl := 7200,
                 entries := [("dQw4w9WgXcQ",
                   .payload { text := "cached", languageCode := "en",
                              isGenerated := false }, 100)] },
        disk := [] }
      0 "dQw4w9WgXcQ" .noTranscriptFound
      = ({ mem := { maxsize := 200, ttl := 7200,
                    entries := [("dQw4w9WgXcQ",
                      .payload { text := "cached", languageCode := "en",
                                 isGenerated := false }, 100)] },
           disk := [] },
         { status := 404, maxAge := some 600, body := none }, []) :=
  ⟨by decide,
   C10_marker_only_when_absent
     { mem := { maxsize := 200, ttl := 7200,
                entries := [("dQw4w9WgXcQ",
                  .payload { text := "cached", languageCode := "en",
                             isGenerated := false }, 100)] },
       disk := [] }
     0 "dQw4w9WgXcQ"
     (.payload { text := "cached", languageCode := "en",
                 isGenerated := false })
     (by decide)⟩

/-- Chain behaviour of `_fetch_comments_resilient` up to a
`PermanentCommentBlock`: strategies before the block that return a falsy
list or raise an ordinary exception advance the chain; the block stops it
(`break`) after invoking that strategy, sets the flag, and the function
returns the empty list. -/
theorem fetchCommentsResilientAux_exc (rest : List CommentStrategyOutcome) :
    fetchCommentsResilientAux (CommentStrategyOutcome.exc :: rest)
      = ((fetchCommentsResilientAux rest).1,
         (fetchCommentsResilientAux rest).2.1 + 1,
         (fetchCommentsResilientAux rest).2.2) := rfl

theorem fetchCommentsResilientAux_okEmpty
    (rest : List CommentStrategyOutcome) :
    fetchCommentsResilientAux (CommentStrategyOutcome.ok [] :: rest)
      = ((fetchCommentsResilientAux rest).1,
         (fetchCommentsResilientAux rest).2.1 + 1,
         (fetchCommentsResilientAux rest).2.2) := rfl

theorem fetchCommentsResilientAux_block (pre post : List CommentStrategyOutcome)
    (hpre : ∀ o ∈ pre, o = CommentStrategyOutcome.exc ∨
      o = CommentStrategyOutcome.ok []) :
    fetchCommentsResilientAux
        (pre ++ CommentStrategyOutcome.permanentBlock :: post)
      = ([], pre.length + 1, true) := by
  induction pre with
  | nil => rfl
  | cons o rest ih =>
    have ho := hpre o (List.mem_cons_self o rest)
    have hrest : ∀ x ∈ rest, x = CommentStrategyOutcome.exc ∨
        x = CommentStrategyOutcome.ok [] :=
      fun x hx => hpre x (List.mem_cons_of_mem o hx)
    have hih := ih hrest
    rw [List.cons_append]
    cases ho with
    | inl hexc =>
      subst hexc
      rw [fetchCommentsResilientAux_exc, hih]
      simp [List.length_cons]
    | inr hempty =>
      subst hempty
      rw [fetchCommentsResilientAux_okEmpty, hih]
      simp [List.length_cons]

/-- **C1** — the spec claims a `PermanentCommentBlock` makes the engine
cache an empty list with a TTL shorter than that of successful entries
and answer with an advisory warning.  On the concrete run below
(downloader strategies return nothing, yt-dlp-direct raises the block)
the chain does stop after the third strategy, but
`_fetch_comments_resilient` swallows the exception and returns a plain
`[]`, so the endpoint takes its ordinary success branch: the response has
`warning = none` (the endpoint handler for the block, line 2123, is
unreachable) and the empty list is stamped with the cache-wide
`COMMENT_CACHE_TTL = 7200` — exactly the TTL of successful entries. -/
theorem C1_counterexample :
    resilientBlockDetected
        [CommentStrategyOutcome.ok [], .ok [], .permanentBlock,
         .ok ["great video"]] = true ∧
    resilientInvokedCount
        [CommentStrategyOutcome.ok [], .ok [], .permanentBlock,
         .ok ["great video"]] = 3 ∧
    _fetch_comments_resilient
        [CommentStrategyOutcome.ok [], .ok [], .permanentBlock,
         .ok ["great video"]] = [] ∧
    (get_comments_fetch_branch
        { mem := { maxsize := 150, ttl := 7200, entries := [] }, disk := [] }
        0 "dQw4w9WgXcQ"
        (Except.ok (_fetch_comments_resilient
          [CommentStrategyOutcome.ok [], .ok [], .permanentBlock,
           .ok ["great video"]]))).2.1.warning = none ∧
    ((get_comments_fetch_branch
        { mem := { maxsize := 150, ttl := 7200, entries := [] }, disk := [] }
        0 "dQw4w9WgXcQ"
        (Except.ok (_fetch_comments_resilient
          [CommentStrategyOutcome.ok [], .ok [], .permanentBlock,
           .ok ["great video"]]))).1.mem.entries.map (fun e => e.2.2)
        = [7200]) ∧
    ((get_comments_fetch_branch
        { mem := { maxsize := 150, ttl := 7200, entries := [] }, disk := [] }
        0 "dQw4w9WgXcQ"
        (Except.ok ["a successful comment"])).1.mem.entries.map
          (fun e => e.2.2) = [7200]) := by
  decide

/-- **C1 amended** — when a strategy raises `PermanentCommentBlock`
(after any prefix of strategies that returned nothing or raised ordinary
exceptions), the engine stops the chain — later strategies are not
invoked — and returns `[]`; the endpoint then caches that empty list in
memory and on disk with the same cache-wide TTL as successful entries and
answers `200` with an empty list and no warning field. -/
theorem C1_amended_block_swallowed (pre post : List CommentStrategyOutcome)
    (hpre : ∀ o ∈ pre, o = CommentStrategyOutcome.exc ∨
      o = CommentStrategyOutcome.ok [])
    (st : CommentsStore) (now : ℤ) (vid : String) :
    resilientBlockDetected
        (pre ++ CommentStrategyOutcome.permanentBlock :: post) = true ∧
    resilientInvokedCount
        (pre ++ CommentStrategyOutcome.permanentBlock :: post)
      = pre.length + 1 ∧
    _fetch_comments_resilient
        (pre ++ CommentStrategyOutcome.permanentBlock :: post) = [] ∧
    (get_comments_fetch_branch st now vid
        (Except.ok (_fetch_comments_resilient
          (pre ++ CommentStrategyOutcome.permanentBlock :: post)))).2.1
      = { status := 200, video_id := vid, comments := [], warning := none } ∧
    (get_comments_fetch_branch st now vid
        (Except.ok (_fetch_comments_resilient
          (pre ++ CommentStrategyOutcome.permanentBlock :: post)))).2.2
      = [{ tier := .memory, key := vid, value := [] },
         { tier := .persistent, key := vid, value := [] }] ∧
    (get_comments_fetch_branch st now vid
        (Except.ok (_fetch_comments_resilient
          (pre ++ CommentStrategyOutcome.permanentBlock :: post)))).1.mem.entries.head?
      = some (vid, [], now + st.mem.ttl) := by
  have haux := fetchCommentsResilientAux_block pre post hpre
  have hres : _fetch_comments_resilient
      (pre ++ CommentStrategyOutcome.permanentBlock :: post) = [] := by
    simp [_fetch_comments_resilient, haux]
  refine ⟨?_, ?_, hres, ?_, ?_, ?_⟩
  · simp [resilientBlockDetected, haux]
  · simp [resilientInvokedCount, haux]
  · rw [hres]; rfl
  · rw [hres]; rfl
  · rw [hres]; rfl

theorem C1_amended_block_swallowed_witness :
    (∀ o ∈ [CommentStrategyOutcome.ok []],
      o = CommentStrategyOutcome.exc ∨ o = CommentStrategyOutcome.ok []) ∧
    (resilientBlockDetected
        ([CommentStrategyOutcome.ok []]
          ++ CommentStrategyOutcome.permanentBlock
            :: [CommentStrategyOutcome.ok ["later"]]) = true ∧
    resilientInvokedCount
        ([CommentStrategyOutcome.ok []]
          ++ CommentStrategyOutcome.permanentBlock
            :: [CommentStrategyOutcome.ok ["later"]])
      = [CommentStrategyOutcome.ok []].length + 1 ∧
    _fetch_comments_resilient
        ([CommentStrategyOutcome.ok []]
          ++ CommentStrategyOutcome.permanentBlock
            :: [CommentStrategyOutcome.ok ["later"]]) = [] ∧
    (get_comments_fetch_branch
        { mem := { maxsize := 150, ttl := 7200, entries := [] }, disk := [] }
        0 "dQw4w9WgXcQ"
        (Except.ok (_fetch_comments_resilient
          ([CommentStrategyOutcome.ok []]
            ++ CommentStrategyOutcome.permanentBlock
              :: [CommentStrategyOutcome.ok ["later"]])))).2.1
      = { status := 200, video_id := "dQw4w9WgXcQ", comments := [],
          warning := none } ∧
    (get_comments_fetch_branch
        { mem := { maxsize := 150, ttl := 7200, entries := [] }, disk := [] }
        0 "dQw4w9WgXcQ"
        (Except.ok (_fetch_comments_resilient
          ([CommentStrategyOutcome.ok []]
            ++ CommentStrategyOutcome.permanentBlock
              :: [CommentStrategyOutcome.ok ["later"]])))).2.2
      = [{ tier := .memory, key := "dQw4w9WgXcQ", value := [] },
         { tier := .persistent, key := "dQw4w9WgXcQ", value := [] }] ∧
    (get_comments_fetch_branch
        { mem := { maxsize := 150, ttl := 7200, entries := [] }, disk := [] }
        0 "dQw4w9WgXcQ"
        (Except.ok (_fetch_comments_resilient
          ([CommentStrategyOutcome.ok []]
            ++ CommentStrategyOutcome.permanentBlock
              :: [CommentStrategyOutcome.ok ["later"]])))).1.mem.entries.head?
      = some ("dQw4w9WgXcQ", [], 0 + (7200 : ℤ))) :=
  ⟨by decide,
   C1_amended_block_swallowed [CommentStrategyOutcome.ok []]
     [CommentStrategyOutcome.ok ["later"]] (by decide)
     { mem := { maxsize := 150, ttl := 7200, entries := [] }, disk := [] }
     0 "dQw4w9WgXcQ"⟩

/-- A cache hit in `_try_serve_from_cache` always answers `200`. -/
theorem _try_serve_from_cache_status (st : CommentsStore) (now : ℤ)
    (v : String) (r : CommentsHttpResponse × CommentsStore)
    (h : _try_serve_from_cache st now v = some r) : r.1.status = 200 := by
  unfold _try_serve_from_cache at h
  cases hm : st.mem.lookup now v with
  | some cached =>
    rw [hm] at h
    injection h with h2
    subst h2
    rfl
  | none =>
    rw [hm] at h
    cases hd : shelveGet st.disk v with
    | some cd =>
      rw [hd] at h
      injection h with h2
      subst h2
      rfl
    | none =>
      rw [hd] at h
      exact absurd h (by simp)

/-- **C9** — for every request whose `videoId` resolves to a valid id,
`/comments` answers HTTP `200`: cache hits are `200`, a normal fetch is
`200`, and the endpoint's blanket exception handlers turn any exception
escaping the resilient fetch into `200` with an empty list and a warning
string; no path of the handler yields a 5xx for a valid id. -/
theorem C9_comments_always_200 (raw : List Char) (st : CommentsStore)
    (now : ℤ) (fetchResult : Except CommentFetchExc (List String))
    (vid : List Char) (hvid : extract_video_id raw = some vid) :
    (get_comments_endpoint_model raw st now fetchResult).1.status = 200 ∧
    (∀ e, fetchResult = Except.error e →
      (get_comments_fetch_branch st now vid.asString fetchResult).2.1.status
          = 200 ∧
      (get_comments_fetch_branch st now vid.asString fetchResult).2.1.comments
          = [] ∧
      (get_comments_fetch_branch st now vid.asString
          fetchResult).2.1.warning.isSome = true) := by
  constructor
  · have hne : raw.isEmpty = false := by
      cases raw with
      | nil =>
        have h0 : extract_video_id ([] : List Char) = none := by decide
        rw [h0] at hvid
        exact absurd hvid (by simp)
      | cons a l => rfl
    simp only [get_comments_endpoint_model, hne, Bool.false_eq_true,
      if_false, hvid]
    cases hserve : _try_serve_from_cache st now vid.asString with
    | some r =>
      simp only [hserve]
      exact _try_serve_from_cache_status st now vid.asString r hserve
    | none =>
      simp only [hserve]
      cases fetchResult with
      | ok cs => rfl
      | error e => cases e <;> rfl
  · intro e he
    subst he
    cases e with
    | permanentBlock => exact ⟨rfl, rfl, rfl⟩
    | other => exact ⟨rfl, rfl, rfl⟩

theorem C9_comments_always_200_witness :
    extract_video_id "dQw4w9WgXcQ".toList = some "dQw4w9WgXcQ".toList ∧
    ((get_comments_endpoint_model "dQw4w9WgXcQ".toList
        { mem := { maxsize := 150, ttl := 7200, entries := [] }, disk := [] }
        0 (Except.error CommentFetchExc.other)).1.status = 200 ∧
    (∀ e, (Except.error CommentFetchExc.other :
        Except CommentFetchExc (List String)) = Except.error e →
      (get_comments_fetch_branch
        { mem := { maxsize := 150, ttl := 7200, entries := [] }, disk := [] }
        0 "dQw4w9WgXcQ".toList.asString
        (Except.error CommentFetchExc.other)).2.1.status = 200 ∧
      (get_comments_fetch_branch
        { mem := { maxsize := 150, ttl := 7200, entries := [] }, disk := [] }
        0 "dQw4w9WgXcQ".toList.asString
        (Except.error CommentFetchExc.other)).2.1.comments = [] ∧
      (get_comments_fetch_branch
        { mem := { maxsize := 150, ttl := 7200, entries := [] }, disk := [] }
        0 "dQw4w9WgXcQ".toList.asString
        (Except.error CommentFetchExc.other)).2.1.warning.isSome = true)) :=
  ⟨by decide,
   C9_comments_always_200 "dQw4w9WgXcQ".toList
     { mem := { maxsize := 150, ttl := 7200, entries := [] }, disk := [] }
     0 (Except.error CommentFetchExc.other) "dQw4w9WgXcQ".toList
     (by decide)⟩

theorem C7_provider_selection_witness :
    ([TranscriptProxyProvider.mk "webshare" "p.webshare.io:80" 0 10,
      TranscriptProxyProvider.mk "decodo" "gate.decodo.com:7000" 0 5]
      ≠ ([] : List TranscriptProxyProvider)) ∧
    (([TranscriptProxyProvider.mk "webshare" "p.webshare.io:80" 0 10,
       TranscriptProxyProvider.mk "decodo" "gate.decodo.com:7000" 0 5].filter
        (TranscriptProxyProvider.is_available 0) ≠ [] →
      _select_transcript_proxy_providers
        [TranscriptProxyProvider.mk "webshare" "p.webshare.io:80" 0 10,
         TranscriptProxyProvider.mk "decodo" "gate.decodo.com:7000" 0 5] 0
        = [TranscriptProxyProvider.mk "webshare" "p.webshare.io:80" 0 10,
           TranscriptProxyProvider.mk "decodo" "gate.decodo.com:7000"
             0 5].filter (TranscriptProxyProvider.is_available 0)) ∧
    ([TranscriptProxyProvider.mk "webshare" "p.webshare.io:80" 0 10,
      TranscriptProxyProvider.mk "decodo" "gate.decodo.com:7000" 0 5].filter
        (TranscriptProxyProvider.is_available 0) = [] →
      (_select_transcript_proxy_providers
        [TranscriptProxyProvider.mk "webshare" "p.webshare.io:80" 0 10,
         TranscriptProxyProvider.mk "decodo" "gate.decodo.com:7000" 0 5]
        0).Sorted byCooldown ∧
      (_select_transcript_proxy_providers
        [TranscriptProxyProvider.mk "webshare" "p.webshare.io:80" 0 10,
         TranscriptProxyProvider.mk "decodo" "gate.decodo.com:7000" 0 5]
        0).Perm
        [TranscriptProxyProvider.mk "webshare" "p.webshare.io:80" 0 10,
         TranscriptProxyProvider.mk "decodo" "gate.decodo.com:7000" 0 5] ∧
      attemptedProviders
        (_select_transcript_proxy_providers
          [TranscriptProxyProvider.mk "webshare" "p.webshare.io:80" 0 10,
           TranscriptProxyProvider.mk "decodo" "gate.decodo.com:7000" 0 5]
          0) 0
        = (_select_transcript_proxy_providers
            [TranscriptProxyProvider.mk "webshare" "p.webshare.io:80" 0 10,
             TranscriptProxyProvider.mk "decodo" "gate.decodo.com:7000" 0 5]
            0).take 1)) :=
  ⟨by decide,
   C7_provider_selection
     [TranscriptProxyProvider.mk "webshare" "p.webshare.io:80" 0 10,
      TranscriptProxyProvider.mk "decodo" "gate.decodo.com:7000" 0 5]
     0 (by decide)⟩

/-! ## Single-flight in-flight deduplication (`app.py` lines 613-620,
1944-1984, 2081-2138)

The comments endpoint (and, with the same shape, the transcript endpoint)
elects a leader by registering a `threading.Event` in an inflight map
under one lock; non-leaders wait on that event with a bounded timeout.
A follower whose wait times out, or whose post-wait cache re-read misses,
sets `leader = True` itself and runs the fetch (lines 2098-2102; the
transcript analogue falls through at line 1984).  The protocol is
modelled for a single cache key as a transition system over thread
phases; steps are no-ops when their thread is not in the required phase
(a thread can only execute the line it is at).  Event generations are
collapsed into one `signaled` flag: the theorems below use only
registration, promotion and completion steps, whose semantics do not
depend on it. -/

/-- Where a requester of the key stands. -/
inductive SfPhase where
  | start : SfPhase
  | waiting : SfPhase
  | fetching (promoted : Bool) : SfPhase
  | done : SfPhase
  deriving Repr, DecidableEq

/-- Global protocol state for one cache key: whether an inflight event is
registered in the map, whether it has been signalled, and each thread's
phase. -/
structure SfState where
  registered : Bool
  signaled : Bool
  phases : List SfPhase
  deriving Repr, DecidableEq

/-- `n` requesters about to enter the handler; the inflight map lacks the
key. -/
def sfInit (n : ℕ) : SfState :=
  { registered := false, signaled := false,
    phases := List.replicate n .start }

/-- One scheduler step: which thread executes which protocol action. -/
inductive SfStep where
  | register (i : ℕ) : SfStep
  | timeoutPromote (i : ℕ) : SfStep
  | missPromote (i : ℕ) : SfStep
  | hitServe (i : ℕ) : SfStep
  | complete (i : ℕ) : SfStep
  deriving Repr, DecidableEq

/-- Transition function.  `register`: the locked block — the thread that
finds no event installs one and becomes leader (`fetching false`), any
other becomes a waiter.  `timeoutPromote`: `evt.wait` timed out, the
follower promotes itself (`fetching true`).  `missPromote`: the event was
signalled but the cache re-read missed, the follower also promotes
itself.  `hitServe`: the event was signalled and the re-read hit.
`complete`: a fetching thread finishes — the `finally` block signals the
event and removes the map entry. -/
def sfStep (s : SfState) : SfStep → SfState
  | .register i =>
    match s.phases[i]? with
    | some .start =>
      if s.registered then { s with phases := s.phases.set i .waiting }
      else
        { s with registered := true, signaled := false,
                 phases := s.phases.set i (.fetching false) }
    | _ => s
  | .timeoutPromote i =>
    match s.phases[i]? with
    | some .waiting => { s with phases := s.phases.set i (.fetching true) }
    | _ => s
  | .missPromote i =>
    match s.phases[i]? with
    | some .waiting =>
      if s.signaled then { s with phases := s.phases.set i (.fetching true) }
      else s
    | _ => s
  | .hitServe i =>
    match s.phases[i]? with
    | some .waiting =>
      if s.signaled then { s with phases := s.phases.set i .done } else s
    | _ => s
  | .complete i =>
    match s.phases[i]? with
    | some (.fetching _) =>
      { s with registered := false, signaled := true,
               phases := s.phases.set i .done }
    | _ => s

/-- Run a schedule. -/
def runSfSchedule (s : SfState) (steps : List SfStep) : SfState :=
  steps.foldl sfStep s

/-- A thread currently performing an acquisition. -/
def isInFlight : SfPhase → Bool
  | .fetching _ => true
  | _ => false

/-- A thread fetching because it promoted itself after its wait. -/
def isPromoted : SfPhase → Bool
  | .fetching b => b
  | _ => false

/-- Number of concurrent acquisitions of the key. -/
def countInFlight (s : SfState) : ℕ := s.phases.countP isInFlight

/-- Number of promoted followers currently fetching. -/
def countPromoted (s : SfState) : ℕ := s.phases.countP isPromoted

/-- Steps that use only registration and completion (no promotion). -/
def isRegisterOrComplete : SfStep → Bool
  | .register _ => true
  | .complete _ => true
  | _ => false

/-- Effect of a point update on a `countP`. -/
theorem countP_set_some {α : Type} (p : α → Bool) :
    ∀ (l : List α) (i : ℕ) (v w : α), l[i]? = some w →
      (l.set i v).countP p + (if p w then 1 else 0)
        = l.countP p + (if p v then 1 else 0)
  | [], i, v, w, h => by simp at h
  | a :: t, 0, v, w, h => by
    have hw : w = a := by simpa using h.symm
    subst hw
    simp only [List.set, List.countP_cons]
    by_cases hv : p v <;> by_cases hw : p w <;> simp [hv, hw]
  | a :: t, i + 1, v, w, h => by
    have ht : t[i]? = some w := by simpa using h
    have ih := countP_set_some p t i v w ht
    simp only [List.set, List.countP_cons]
    by_cases ha : p a <;> simp [ha] <;> omega

/-- The invariant of promotion-free executions: no promoted fetcher, and
the in-flight count is `1` exactly while an event is registered. -/
def sfInv (s : SfState) : Prop :=
  countPromoted s = 0 ∧
  countInFlight s = (if s.registered then 1 else 0)

theorem sfInv_init (n : ℕ) : sfInv (sfInit n) := by
  constructor
  · show List.countP isPromoted (List.replicate n .start) = 0
    rw [List.countP_eq_zero]
    intro a ha
    rw [List.eq_of_mem_replicate ha]
    simp [isPromoted]
  · show List.countP isInFlight (List.replicate n .start)
      = (if (false : Bool) then 1 else 0)
    rw [List.countP_eq_zero.mpr]
    · simp
    · intro a ha
      rw [List.eq_of_mem_replicate ha]
      simp [isInFlight]

theorem sfInv_step (s : SfState) (hs : sfInv s) (st : SfStep)
    (hst : isRegisterOrComplete st = true) : sfInv (sfStep s st) := by
  obtain ⟨hpro, hcnt⟩ := hs
  cases st with
  | timeoutPromote i => exact absurd hst (by simp [isRegisterOrComplete])
  | missPromote i => exact absurd hst (by simp [isRegisterOrComplete])
  | hitServe i => exact absurd hst (by simp [isRegisterOrComplete])
  | register i =>
    cases hget : s.phases[i]? with
    | none =>
      have hstep : sfStep s (.register i) = s := by simp [sfStep, hget]
      rw [hstep]
      exact ⟨hpro, hcnt⟩
    | some ph =>
      cases ph with
      | waiting =>
        have hstep : sfStep s (.register i) = s := by simp [sfStep, hget]
        rw [hstep]; exact ⟨hpro, hcnt⟩
      | fetching b =>
        have hstep : sfStep s (.register i) = s := by simp [sfStep, hget]
        rw [hstep]; exact ⟨hpro, hcnt⟩
      | done =>
        have hstep : sfStep s (.register i) = s := by simp [sfStep, hget]
        rw [hstep]; exact ⟨hpro, hcnt⟩
      | start =>
        have h1 := countP_set_some isInFlight s.phases i .waiting .start hget
        have h2 := countP_set_some isPromoted s.phases i .waiting .start hget
        have h3 := countP_set_some isInFlight s.phases i (.fetching false)
          .start hget
        have h4 := countP_set_some isPromoted s.phases i (.fetching false)
          .start hget
        simp [isInFlight, isPromoted] at h1 h2 h3 h4
        cases hr : s.registered with
        | true =>
          have hstep : sfStep s (.register i)
              = { s with phases := s.phases.set i .waiting } := by
            simp [sfStep, hget, hr]
          rw [hstep]
          constructor
          · show List.countP isPromoted (s.phases.set i .waiting) = 0
            simp only [countPromoted] at hpro
            omega
          · show List.countP isInFlight (s.phases.set i .waiting)
              = (if s.registered then 1 else 0)
            simp only [countInFlight] at hcnt
            rw [hr] at hcnt ⊢
            simp only [if_true] at hcnt ⊢
            omega
        | false =>
          have hstep : sfStep s (.register i)
              = { s with registered := true, signaled := false,
                         phases := s.phases.set i (.fetching false) } := by
            simp [sfStep, hget, hr]
          rw [hstep]
          constructor
          · show List.countP isPromoted (s.phases.set i (.fetching false)) = 0
            simp only [countPromoted] at hpro
            omega
          · show List.countP isInFlight (s.phases.set i (.fetching false))
              = (if (true : Bool) then 1 else 0)
            simp only [countInFlight, hr] at hcnt
            simp only [Bool.false_eq_true, if_false] at hcnt
            simp only [if_true]
            omega
  | complete i =>
    cases hget : s.phases[i]? with
    | none =>
      have hstep : sfStep s (.complete i) = s := by simp [sfStep, hget]
      rw [hstep]; exact ⟨hpro, hcnt⟩
    | some ph =>
      cases ph with
      | start =>
        have hstep : sfStep s (.complete i) = s := by simp [sfStep, hget]
        rw [hstep]; exact ⟨hpro, hcnt⟩
      | waiting =>
        have hstep : sfStep s (.complete i) = s := by simp [sfStep, hget]
        rw [hstep]; exact ⟨hpro, hcnt⟩
      | done =>
        have hstep : sfStep s (.complete i) = s := by simp [sfStep, hget]
        rw [hstep]; exact ⟨hpro, hcnt⟩
      | fetching b =>
        have hmem : SfPhase.fetching b ∈ s.phases := by
          obtain ⟨hlt, hv⟩ := List.getElem?_eq_some.mp hget
          exact hv ▸ List.getElem_mem hlt
        have hb : b = false := by
          cases hbv : b with
          | false => rfl
          | true =>
            exfalso
            have hpos : 0 < s.phases.countP isPromoted := by
              rw [List.countP_pos_iff]
              refine ⟨.fetching b, hmem, ?_⟩
              rw [hbv]
              simp [isPromoted]
            simp only [countPromoted] at hpro
            omega
        subst hb
        have hreg : s.registered = true := by
          cases hrv : s.registered with
          | true => rfl
          | false =>
            exfalso
            rw [hrv] at hcnt
            simp only [Bool.false_eq_true, if_false, countInFlight] at hcnt
            have hpos : 0 < s.phases.countP isInFlight := by
              rw [List.countP_pos_iff]
              exact ⟨.fetching false, hmem, by simp [isInFlight]⟩
            omega
        have hstep : sfStep s (.complete i)
            = { s with registered := false, signaled := true,
                       phases := s.phases.set i .done } := by
          simp [sfStep, hget]
        rw [hstep]
        have h1 := countP_set_some isInFlight s.phases i .done
          (.fetching false) hget
        have h2 := countP_set_some isPromoted s.phases i .done
          (.fetching false) hget
        simp [isInFlight, isPromoted] at h1 h2
        constructor
        · show List.countP isPromoted (s.phases.set i .done) = 0
          simp only [countPromoted] at hpro
          omega
        · show List.countP isInFlight (s.phases.set i .done)
            = (if (false : Bool) then 1 else 0)
          simp only [countInFlight, hreg, if_true] at hcnt
          simp only [Bool.false_eq_true, if_false]
          omega

theorem sfInv_run (s : SfState) (hs : sfInv s) (steps : List SfStep)
    (hsteps : steps.all isRegisterOrComplete = true) :
    sfInv (runSfSchedule s steps) := by
  induction steps generalizing s with
  | nil => exact hs
  | cons st rest ih =>
    simp only [List.all_cons, Bool.and_eq_true] at hsteps
    exact ih (sfStep s st) (sfInv_step s hs st hsteps.1) hsteps.2

/-- **C2** — the spec claims at most one acquisition per key is ever in
flight and that at most a single follower is promoted after a timeout.
Concrete schedule: thread 0 registers the event and fetches; threads 1
and 2 become waiters; both waits time out, and each of lines 2100-2102
independently sets `leader = True` and proceeds to fetch.  The final
state has two promoted followers and three concurrent acquisitions of the
same key. -/
theorem C2_counterexample :
    countInFlight (runSfSchedule (sfInit 3)
      [SfStep.register 0, SfStep.register 1, SfStep.register 2,
       SfStep.timeoutPromote 1, SfStep.timeoutPromote 2]) = 3 ∧
    countPromoted (runSfSchedule (sfInit 3)
      [SfStep.register 0, SfStep.register 1, SfStep.register 2,
       SfStep.timeoutPromote 1, SfStep.timeoutPromote 2]) = 2 ∧
    ¬ (countInFlight (runSfSchedule (sfInit 3)
      [SfStep.register 0, SfStep.register 1, SfStep.register 2,
       SfStep.timeoutPromote 1, SfStep.timeoutPromote 2]) ≤ 1) := by
  decide

/-- **C2 amended** — leadership by registration is exclusive: in every
execution that uses only the locked registration and the leader
completion (no follower promotes itself after a timeout or a post-wait
cache miss), at most one acquisition of the key is in flight at any
moment.  The promotion steps break this bound, as the counterexample
schedule shows: each timed-out follower — not just a single one — is
promoted and fetches concurrently. -/
theorem C2_amended_registration_exclusive (n : ℕ) (steps : List SfStep)
    (hsteps : steps.all isRegisterOrComplete = true) :
    countInFlight (runSfSchedule (sfInit n) steps) ≤ 1 := by
  obtain ⟨-, hcnt⟩ := sfInv_run (sfInit n) (sfInv_init n) steps hsteps
  rw [hcnt]
  cases (runSfSchedule (sfInit n) steps).registered <;> simp

theorem C2_amended_registration_exclusive_witness :
    ([SfStep.register 0, SfStep.register 1, SfStep.complete 0,
      SfStep.register 1].all isRegisterOrComplete = true) ∧
    countInFlight (runSfSchedule (sfInit 2)
      [SfStep.register 0, SfStep.register 1, SfStep.complete 0,
       SfStep.register 1]) ≤ 1 :=
  ⟨by decide,
   C2_amended_registration_exclusive 2
     [SfStep.register 0, SfStep.register 1, SfStep.complete 0,
      SfStep.register 1] (by decide)⟩
